import Mathlib

/-!
Shallow embedding of the Finnhub Grafana data source (`src/DataSource.ts`).

Provider payloads are dynamic JavaScript values, modelled by `JVal`.
JavaScript numbers are modelled by `ℚ` (every payload value exercised here is
exact), `undefined` by `JVal.undefVal` and `NaN` by `JVal.nanV`.  Operations that
throw a `TypeError` in JavaScript (indexing `undefined`, calling `.map` on a
non-array, `Object.keys(undefined)`) are modelled by returning `none`.
-/

namespace GrafanaFinnhub

/-- A dynamic JavaScript value as it appears in provider payloads and
normalized outputs. -/
inductive JVal where
  | num (q : ℚ)
  | str (s : String)
  | undefVal
  | nanV
  | arr (elems : List JVal)
  | obj (fields : List (String × JVal))
deriving Repr

/-- JavaScript truthiness of a value (`if (x)`). Objects and arrays are
always truthy; `undefined`, `NaN`, `0` and the empty string are falsy. -/
def jsTruthy : JVal → Bool
  | .num q => q ≠ 0
  | .str s => s ≠ ""
  | .undefVal => false
  | .nanV => false
  | .arr _ => true
  | .obj _ => true

/-- Property access `v[k]` on a value that is not `undefined`: a field lookup
on objects, `undefined` on primitives and arrays. -/
def jget (v : JVal) (k : String) : JVal :=
  match v with
  | .obj fields => (fields.lookup k).getD .undefVal
  | _ => .undefVal

/-- Property access `v[k]` where the base may be `undefined`, in which case
JavaScript throws a `TypeError` (modelled as `none`). -/
def jgetOpt (v : JVal) (k : String) : Option JVal :=
  match v with
  | .undefVal => none
  | w => some (jget w k)

/-- `Object.keys(v)` for an object: its field names in insertion order.
For non-object primitives `Object.keys` returns `[]`; index keys of strings
and arrays are not modelled (never exercised by this code). -/
def jkeys : JVal → List String
  | .obj fields => fields.map Prod.fst
  | _ => []

/-- `Object.values(v)`: field values in insertion order (non-objects give
`[]`, as for `jkeys`). -/
def jvalues : JVal → List JVal
  | .obj fields => fields.map Prod.snd
  | _ => []

/-- Index access `v[i]`: throws (`none`) when the base is `undefined`;
out-of-range array access yields `undefined`; numeric-property access on a
plain object; `undefined` on numbers. -/
def jindexOpt (v : JVal) (i : Nat) : Option JVal :=
  match v with
  | .undefVal => none
  | .arr xs => some (xs.getD i .undefVal)
  | .obj fields => some ((fields.lookup (toString i)).getD .undefVal)
  | _ => some .undefVal

/-- JavaScript `x * 1000`: numeric on numbers, `NaN` otherwise
(`undefined * 1000` is `NaN`). -/
def jmul1000 : JVal → JVal
  | .num q => .num (q * 1000)
  | _ => .nanV

/-- Days since the Unix epoch of a proleptic-Gregorian civil date
(Howard Hinnant's `days_from_civil` algorithm, used here to model the
timestamp JavaScript assigns to an ISO date). -/
def daysFromCivil (year month day : ℤ) : ℤ :=
  let y := if month ≤ 2 then year - 1 else year
  let era := (if 0 ≤ y then y else y - 399) / 400
  let yoe := y - era * 400
  let mp := (month + 9) % 12
  let doy := (153 * mp + 2) / 5 + day - 1
  let doe := yoe * 365 + yoe / 4 - yoe / 100 + doy
  era * 146097 + doe - 719468

/-- Split a character list at every dash (the field separator of an ISO
date). -/
def splitDash : List Char → List (List Char)
  | [] => [[]]
  | c :: rest =>
      let r := splitDash rest
      if c = '-' then [] :: r
      else
        match r with
        | [] => [[c]]
        | g :: gs => (c :: g) :: gs

/-- Parse a non-empty run of decimal digits, accumulating left to right. -/
def digitsToNatAux : List Char → ℕ → Option ℕ
  | [], acc => some acc
  | c :: rest, acc =>
      if 48 ≤ c.toNat ∧ c.toNat ≤ 57 then
        digitsToNatAux rest (acc * 10 + (c.toNat - 48))
      else none

/-- The numeric value of a non-empty all-digit character list. -/
def digitsToNat (l : List Char) : Option ℕ :=
  match l with
  | [] => none
  | _ => digitsToNatAux l 0

/-- Epoch milliseconds of an ISO `YYYY-MM-DD` date string, as JavaScript's
`Date` parses it (UTC midnight).  Only the date-only ISO format is modelled
(the only format the earnings payloads carry); anything else is an invalid
date (`none`, i.e. `NaN` time value). -/
def parseDateMs (s : String) : Option ℤ :=
  match splitDash s.data with
  | [ys, ms, ds] => do
      let y ← digitsToNat ys
      let m ← digitsToNat ms
      let d ← digitsToNat ds
      pure (daysFromCivil y m d * 86400000)
  | _ => none

/-- `new Date(x).getTime()`: epoch ms for a parsable date string, the number
itself for a numeric time value, `NaN` otherwise (in particular for
`undefined`). -/
def jsDateGetTime (v : JVal) : JVal :=
  match v with
  | .str s =>
      match parseDateMs s with
      | some ms => .num ms
      | none => .nanV
  | .num q => .num q
  | _ => .nanV

/-- JavaScript `s.charAt(0)`: the first character as a one-character string
(the empty string for an empty input). -/
def charAt0 (s : String) : String :=
  match s.data with
  | [] => ""
  | c :: _ => ⟨[c]⟩

/-- ASCII uppercasing of one character, modelling JavaScript
`toUpperCase` on the ASCII range (ticker symbols). -/
def upChar (c : Char) : Char :=
  if 97 ≤ c.toNat ∧ c.toNat ≤ 122 then Char.ofNat (c.toNat - 32) else c

/-- `String.prototype.toUpperCase`, restricted to ASCII. -/
def jsToUpper (s : String) : String :=
  ⟨s.data.map upChar⟩

/-- A target specification (`MyQuery & CandleQuery`).  `type` models
`target.type?.value` (the selected query kind), `metric` models
`target?.metric?.value`; the empty string in `queryText` models an absent or
empty free-text override (both are falsy in `if (queryText)`). -/
structure Target where
  refId : String
  type : Option String
  symbol : Option String
  queryText : String
  resolution : Option String
  metric : Option String
deriving DecidableEq, Repr

/-- A value stored in a `refId` field.  The Grafana contract has refIds as
plain strings; `constructQuery` instead stores `{ target }`, an object
wrapping the whole target, which `wrapped` models. -/
inductive RefIdVal where
  | str (s : String)
  | wrapped (target : Target)
deriving DecidableEq, Repr

/-- A time range, kept in epoch milliseconds as the host supplies it;
`range.from.unix()` / `range.to.unix()` floor to whole seconds. -/
structure TimeRange where
  fromMs : ℤ
  toMs : ℤ
deriving DecidableEq, Repr

/-- `range.from.unix()`: integer unix seconds (floor of ms / 1000). -/
def TimeRange.fromUnix (r : TimeRange) : ℤ := Int.fdiv r.fromMs 1000

/-- `range.to.unix()`: integer unix seconds (floor of ms / 1000). -/
def TimeRange.toUnix (r : TimeRange) : ℤ := Int.fdiv r.toMs 1000

/-- The flat provider request built by `constructQuery`; absent fields are
`none`.  `fromTime`/`toTime` model the `from`/`to` fields (`from` is a Lean
keyword). -/
structure ProviderRequest where
  symbol : Option String
  resolution : Option String
  metric : Option String
  fromTime : Option ℤ
  toTime : Option ℤ
  refId : RefIdVal
deriving DecidableEq, Repr

/-- `DataSource.constructQuery` (DataSource.ts lines 35-51): uppercases the
symbol, wraps the whole target as `refId = { target }`, and branches on the
query kind: candle adds resolution and the range as unix seconds, metric adds
the metric name, everything else sends only the symbol. -/
def constructQuery (target : Target) (range : TimeRange) : ProviderRequest :=
  let symbol := target.symbol.map jsToUpper
  let refId := RefIdVal.wrapped target
  if target.type = some "candle" then
    { symbol := symbol, resolution := target.resolution, metric := none,
      fromTime := some range.fromUnix, toTime := some range.toUnix,
      refId := refId }
  else if target.type = some "metric" then
    { symbol := symbol, resolution := none, metric := target.metric,
      fromTime := none, toTime := none, refId := refId }
  else
    { symbol := symbol, resolution := none, metric := none,
      fromTime := none, toTime := none, refId := refId }

/-- Modelled from the spec: `defaultQuery` is defined in `types.ts`, which is
not among the sources.  The spec's data model only requires targets to carry
a query kind, so the default supplies a kind and nothing else; in particular
it carries no `refId`, so `{ ...defaultQuery, ...target }` never changes a
target's `refId`. -/
def defaultQuery : Target :=
  { refId := "", type := some "profile", symbol := none, queryText := "",
    resolution := none, metric := none }

/-- The spread `{ ...defaultQuery, ...target }`: fields present on the target
win, absent optional fields fall back to the default. -/
def withDefaults (t : Target) : Target :=
  { refId := t.refId
    type := t.type.orElse fun _ => defaultQuery.type
    symbol := t.symbol.orElse fun _ => defaultQuery.symbol
    queryText := t.queryText
    resolution := t.resolution.orElse fun _ => defaultQuery.resolution
    metric := t.metric.orElse fun _ => defaultQuery.metric }

/-- One entry of `this.sockets`: the WebSocket opened for a streaming target,
with the symbol it subscribes and whether `close` has been called on it. -/
structure Conn where
  symbol : Option String
  closed : Bool
deriving DecidableEq, Repr

/-- `DataSource.closeSockets` (lines 53-55):
`this.sockets.forEach(socket => socket.close(1001))`.  Every held socket is
closed; the array itself is never reassigned or emptied. -/
def closeSockets (sockets : List Conn) : List Conn :=
  sockets.map fun c => { c with closed := true }

/-- An observable socket-lifecycle event during one `query` call. -/
inductive SockEvent where
  | closeConn (symbol : Option String)
  | openConn (symbol : Option String)
deriving DecidableEq, Repr

/-- Which path `query` (lines 57-127) takes for a batch: the streaming
branch or the REST build/dispatch/normalize branch. -/
inductive QueryRoute where
  | streaming
  | rest
deriving DecidableEq, Repr

/-- The routing decision of `query`, line 60:
`if (targets[0].type?.value === 'quote')`.  The whole batch is routed by the
first target's kind; `targets[0]` on an empty batch throws (`none`). -/
def queryRoute (targets : List Target) : Option QueryRoute :=
  match targets with
  | [] => none
  | t0 :: _ => some (if t0.type = some "quote" then .streaming else .rest)

/-- The data emitted with every `subscriber.next` of one streaming target's
observable: the frame's `refId` (line 71), the emission `key` (line 92) and
the symbol sent in the subscribe handshake (line 77), all taken from
`constructQuery({ ...defaultQuery, ...target }, range)`. -/
structure FrameEmission where
  frameRefId : RefIdVal
  key : RefIdVal
  subscribeSymbol : Option String
deriving DecidableEq, Repr

/-- The per-target streaming setup of `query` (lines 61-100). -/
def streamTarget (t : Target) (range : TimeRange) : FrameEmission :=
  let q := constructQuery (withDefaults t) range
  { frameRefId := q.refId, key := q.refId, subscribeSymbol := q.symbol }

/-- The effect of one `query` call (lines 57-127) on `this.sockets`,
together with the ordered trace of socket lifecycle events it produces:
`closeSockets` runs first and closes every previously held socket (the list
keeps them); only then does the streaming branch append one new open socket
per target.  The REST branch appends nothing. -/
def querySockets (sockets : List Conn) (targets : List Target)
    (range : TimeRange) : List Conn × List SockEvent :=
  let closedPrev := closeSockets sockets
  let closeEvents := sockets.map fun c => SockEvent.closeConn c.symbol
  match queryRoute targets with
  | some .streaming =>
      let opened := targets.map fun t =>
        { symbol := (streamTarget t range).subscribeSymbol, closed := false }
      (closedPrev ++ opened,
       closeEvents ++ targets.map fun t =>
         SockEvent.openConn (streamTarget t range).subscribeSymbol)
  | _ => (closedPrev, closeEvents)

/-- A resolved response of `backendSrv.get`: an HTTP status and the decoded
payload. -/
structure ProviderResp where
  status : ℤ
  body : JVal
deriving Repr

/-- The external HTTP transport (`backendSrv.get`): a url and query
parameters either resolve to a response or reject with an error message. -/
def Transport : Type :=
  String → List (String × String) → Except String ProviderResp

/-- `https://finnhub.io/api/v1` (line 30). -/
def baseUrl : String := "https://finnhub.io/api/v1"

/-- The url built by `get` (line 191): every kind except `quote` goes under
the `/stock` sub-path. -/
def getUrl (dataType : String) : String :=
  baseUrl ++ (if dataType = "quote" then "" else "/stock") ++ "/" ++ dataType

/-- `DataSource.get` (lines 190-201): dispatches a structured request with
the token appended; a transport failure is logged (`snd`) and re-thrown, so
the promise rejects. -/
def get (transport : Transport) (token : String) (dataType : String)
    (params : List (String × String)) :
    Except String ProviderResp × List String :=
  match transport (getUrl dataType) (params ++ [("token", token)]) with
  | .ok resp => (.ok resp, [])
  | .error e => (.error e, ["Error retrieving data"])

/-- `DataSource.freeTextQuery` (lines 182-188): raw passthrough request; a
transport failure is logged and swallowed, resolving with `undefined`
(`none`). -/
def freeTextQuery (transport : Transport) (token : String) (q : String) :
    Option ProviderResp × List String :=
  match transport (baseUrl ++ "/" ++ q ++ "&token=" ++ token) [] with
  | .ok resp => (some resp, [])
  | .error _ => (none, ["Error retrieving data"])

/-- The query parameters `get` receives from `testDatasource` (line 175). -/
def probeParams : List (String × String) := [("symbol", "AAPL")]

/-- `DataSource.testDatasource` (lines 174-180): awaits a profile request for
the fixed symbol AAPL; a rethrown transport failure propagates (the promise
rejects), a resolved response maps to the status-200 check. -/
def testDatasource (transport : Transport) (token : String) :
    Except String String :=
  match get transport token "profile" probeParams with
  | (.ok resp, _) => if resp.status = 200 then .ok "success" else .ok "error"
  | (.error e, _) => .error e

/-- One named time series of the normalized output: a series name and its
`[value, timestamp]` sample pairs. -/
structure TimeSeries where
  target : String
  datapoints : List (JVal × JVal)
deriving Repr

/-- One column descriptor of a table response. -/
structure TableCol where
  text : String
  type : String
deriving Repr

/-- A non-empty table response: columns derived from the first row, rows as
ordered value lists. -/
structure Table where
  columns : List TableCol
  rows : List (List JVal)
deriving Repr

/-- A per-target normalized output: the empty-table sentinel `{}` returned
for an empty payload, a table, or a list of time series. -/
inductive NormalizedOutput where
  | emptyTable
  | table (t : Table)
  | series (s : List TimeSeries)
deriving Repr

/-- Whether a normalized output is Table-shaped (the `{}` sentinel included)
rather than a time-series list. -/
def NormalizedOutput.isTableShape : NormalizedOutput → Bool
  | .emptyTable => true
  | .table _ => true
  | .series _ => false

/-- `DataSource.tableResponse` (lines 129-140): `{}` for an empty payload;
otherwise columns from `Object.entries` of the first entry with
`typeof val === 'string'` deciding the column type, and rows as
`Object.values` of every entry. -/
def tableResponse (data : List JVal) : NormalizedOutput :=
  match data with
  | [] => .emptyTable
  | d0 :: rest =>
      .table
        { columns := (jkeys d0).zip (jvalues d0) |>.map fun kv =>
            { text := kv.1,
              type := match kv.2 with
                | .str _ => "string"
                | _ => "number" }
          rows := (d0 :: rest).map fun d => jvalues d }

/-- `DataSource.tsResponse` (lines 142-172), the time-series normalizer,
dispatching on the query kind string.  `none` models a thrown `TypeError`
(`Object.keys(data[0])` with no first element, `.map` on a non-array,
indexing a missing array). -/
def tsResponse (data : JVal) (type : String) : Option (List TimeSeries) :=
  match type with
  | "earnings" =>
      match data with
      | .arr (d0 :: rest) =>
          let dps := d0 :: rest
          let excludedFields := ["period", "symbol"]
          let keys := (jkeys d0).filter fun key => !(excludedFields.contains key)
          keys.mapM fun key =>
            (dps.mapM fun dp =>
              (jgetOpt dp key).bind fun v =>
                (jgetOpt dp "period").map fun per =>
                  (v, jsDateGetTime per)).map fun points =>
              { target := key, datapoints := points }
      | _ => none
  | "quote" =>
      some [{ target := "current price",
              datapoints := [(jget data "c", jmul1000 (jget data "t"))] }]
  | "candle" =>
      let fields := ["open price", "close price"]
      match jget data "t" with
      | .arr times =>
          fields.mapM fun field =>
            (times.enum.mapM fun p =>
              (jindexOpt (jget data (charAt0 field)) p.1).map fun v =>
                (v, jmul1000 p.2)).map fun points =>
              { target := field, datapoints := points }
      | _ => none
  | _ => some []

/-- The two output shapes the target classifier can pick. -/
inductive TargetType where
  | Table
  | TimeSeries
deriving DecidableEq, Repr

/-- Modelled from the spec: `getTargetType` is defined in `utils.ts`, which
is not among the sources.  Per the spec's Target Classifier, the standard
kinds profile, candle, quote and earnings route to TimeSeries, and other
kinds (e.g. metric) route to Table; the classification is a function of the
query kind only (`getTargetType(type)` receives nothing else). -/
def getTargetType (type : Option String) : TargetType :=
  match type with
  | some ty =>
      if ty = "profile" ∨ ty = "candle" ∨ ty = "quote" ∨ ty = "earnings"
      then .TimeSeries else .Table
  | none => .Table

/-- Modelled from the spec: `ensureArray` is defined in `utils.ts`, which is
not among the sources.  Table rows are "the ordered value-lists of every
payload entry", so a non-array payload is wrapped as a one-entry list and an
array payload is kept. -/
def ensureArray (v : JVal) : List JVal :=
  match v with
  | .arr xs => xs
  | x => [x]

/-- The request selection of the REST branch of `query` (lines 104-114): a
present (truthy) free-text override bypasses structured construction,
otherwise `constructQuery` runs on the defaults-merged target. -/
inductive RequestKind where
  | freeText (q : String)
  | structured (dataType : Option String) (params : ProviderRequest)
deriving DecidableEq, Repr

/-- Which provider request the REST branch issues for one target. -/
def requestOf (t : Target) (range : TimeRange) : RequestKind :=
  let merged := withDefaults t
  if merged.queryText ≠ "" then .freeText merged.queryText
  else .structured merged.type (constructQuery merged range)

/-- The `.then` continuation of the REST branch (lines 117-123): unwrap a
truthy `metric` envelope, then normalize as a table or a time-series list
according to `getTargetType` of the target's kind.  `data` is the value the
request resolved with; `none` models a `TypeError` thrown in the
continuation (property access on `undefined`, or a throwing `tsResponse`),
which rejects the batch. -/
def normalizeTarget (t : Target) (data : JVal) : Option NormalizedOutput :=
  let merged := withDefaults t
  let isTable := getTargetType merged.type = TargetType.Table
  (jgetOpt data "metric").bind fun metricField =>
    let data2 := if jsTruthy metricField then metricField else data
    if isTable then
      some (tableResponse (ensureArray data2))
    else
      (tsResponse data2 (merged.type.getD "")).map NormalizedOutput.series

/-! ### Concrete inputs used by witnesses and counterexamples -/

/-- A concrete time range (epoch ms). -/
def exRange : TimeRange := { fromMs := 1000, toMs := 2500 }

/-- A candle target with refId "A". -/
def candleTarget : Target :=
  { refId := "A", type := some "candle", symbol := some "AAPL",
    queryText := "", resolution := some "D", metric := none }

/-- A quote target with refId "B" (the kind that triggers the streaming
branch when first in a batch). -/
def quoteTarget : Target :=
  { refId := "B", type := some "quote", symbol := some "TSLA",
    queryText := "", resolution := none, metric := none }

/-- A target whose symbol is lower-case "aapl". -/
def aaplTarget : Target :=
  { refId := "D", type := none, symbol := some "aapl", queryText := "",
    resolution := none, metric := none }

/-- An earnings target carrying a free-text override. -/
def freeTextEarningsTarget : Target :=
  { refId := "C", type := some "earnings", symbol := some "AAPL",
    queryText := "stock/earnings?symbol=AAPL", resolution := none,
    metric := none }

/-- The single data point of the spec's earnings example:
`{period:"2020-01-01", symbol:"AAPL", actual:1.1, estimate:1.0}`. -/
def earningsPoint : JVal :=
  .obj [("period", .str "2020-01-01"), ("symbol", .str "AAPL"),
        ("actual", .num (11 / 10)), ("estimate", .num 1)]

/-- The earnings payload of the spec's example:
`[{period:"2020-01-01", symbol:"AAPL", actual:1.1, estimate:1.0}]`. -/
def earningsPayload : JVal := .arr [earningsPoint]

/-- The candle payload of the spec's example:
`{t:[100,200], o:[10,11], c:[12,13]}`. -/
def candlePayload : JVal :=
  .obj [("t", .arr [.num 100, .num 200]),
        ("o", .arr [.num 10, .num 11]),
        ("c", .arr [.num 12, .num 13])]

/-- A one-point earnings payload fed through the free-text pipeline. -/
def smallEarningsPayload : JVal :=
  .arr [.obj [("period", .str "2020-01-01"), ("actual", .num 1)]]

/-- The normalized output the free-text pipeline produces for
`freeTextEarningsTarget` on `smallEarningsPayload`: a time-series list, not
a table. -/
def smallSeriesOut : NormalizedOutput :=
  .series [{ target := "actual",
             datapoints := [(.num 1, .num 1577836800000)] }]

/-- A transport that always rejects. -/
def failTransport : Transport := fun _ _ => .error "boom"

/-- A transport that always resolves with HTTP status 500. -/
def status500Transport : Transport :=
  fun _ _ => .ok { status := 500, body := .undefVal }

/-! ### Helper lemmas -/

theorem charOfNat_toNat (n : ℕ) (hn : n.isValidChar) :
    (Char.ofNat n).toNat = n := by
  simp [Char.ofNat, hn, Char.ofNatAux, Char.toNat, UInt32.toNat,
    BitVec.toNat_ofNatLt]

theorem upChar_idem (c : Char) : upChar (upChar c) = upChar c := by
  unfold upChar
  by_cases h : 97 ≤ c.toNat ∧ c.toNat ≤ 122
  · rw [if_pos h]
    have hv : (c.toNat - 32).isValidChar := Or.inl (by omega)
    rw [if_neg]
    rw [charOfNat_toNat (c.toNat - 32) hv]
    omega
  · rw [if_neg h, if_neg h]

theorem jsToUpper_idem (s : String) : jsToUpper (jsToUpper s) = jsToUpper s := by
  unfold jsToUpper
  rw [List.map_map]
  exact congrArg String.mk (List.map_congr_left fun a _ => upChar_idem a)

/-- `mapM` over `Option` succeeds pointwise: if every element maps to `some`,
the whole traversal is the plain `map`. -/
theorem mapM_eq_map {α β : Type} (f : α → Option β) (g : α → β) (l : List α)
    (h : ∀ a ∈ l, f a = some (g a)) : l.mapM f = some (l.map g) := by
  induction l with
  | nil => rfl
  | cons a as ih =>
      rw [List.mapM_cons, h a (by simp), ih fun x hx => h x (by simp [hx])]
      rfl

/-- Property access on a value that is not `undefined` never throws. -/
theorem jgetOpt_some (v : JVal) (k : String) (h : v ≠ JVal.undefVal) :
    jgetOpt v k = some (jget v k) := by
  cases v <;> first | rfl | exact absurd rfl h

/-- `tableResponse` always yields a Table-shaped output (the `{}` sentinel
included). -/
theorem tableResponse_shape (data : List JVal) :
    (tableResponse data).isTableShape = true := by
  cases data <;> rfl

/-- Every request shape `constructQuery` can build carries the uppercased
symbol and wraps the whole target as its `refId`. -/
theorem constructQuery_symbol_refId (t : Target) (r : TimeRange) :
    (constructQuery t r).symbol = t.symbol.map jsToUpper ∧
    (constructQuery t r).refId = RefIdVal.wrapped t := by
  unfold constructQuery
  split_ifs <;> exact ⟨rfl, rfl⟩

/-! ### Claim theorems -/

/-- C1 (counterexample): the refId does not round-trip as claimed.  For the
quote target with refId "B", neither the provider request built by
`constructQuery` nor the refId tag attached to a streaming frame equals the
original `refId` field: both hold the wrapper object `{ target }` instead. -/
theorem refId_roundtrip_cex :
    (constructQuery quoteTarget exRange).refId ≠
      RefIdVal.str quoteTarget.refId ∧
    (streamTarget quoteTarget exRange).frameRefId ≠
      RefIdVal.str quoteTarget.refId := by
  decide

/-- C1 (amended): for every target, the request's `refId` field is the
object `{ target }` wrapping the whole original target, and the streaming
frame's refId tag and emission key are the wrapper of the defaults-merged
target; the wrapper carries the original `refId` string unchanged inside
(`(withDefaults t).refId = t.refId`). -/
theorem refId_wrapped (t : Target) (r : TimeRange) :
    (constructQuery t r).refId = RefIdVal.wrapped t ∧
    (streamTarget t r).frameRefId = RefIdVal.wrapped (withDefaults t) ∧
    (streamTarget t r).key = (streamTarget t r).frameRefId ∧
    (withDefaults t).refId = t.refId := by
  refine ⟨(constructQuery_symbol_refId t r).2, ?_, rfl, rfl⟩
  exact (constructQuery_symbol_refId (withDefaults t) r).2

/-- C2 (counterexample): a batch whose first target has kind `quote` — not
`quote-stream` — is routed to the streaming-subscription path, contradicting
the claim that only a first kind of `quote-stream` streams and every other
first kind goes through the REST path. -/
theorem queryRoute_quote_cex :
    queryRoute [quoteTarget] = some QueryRoute.streaming ∧
    quoteTarget.type ≠ some "quote-stream" := by
  decide

/-- C2 (amended): the top-level `query` routes the whole batch to the
streaming path exactly when the first target's kind is `quote` (the code has
no `quote-stream` kind string); the decision depends only on the first
target, every other first kind taking the REST path. -/
theorem queryRoute_first_kind (t0 : Target) (rest rest' : List Target) :
    (queryRoute (t0 :: rest) = some QueryRoute.streaming ↔
      t0.type = some "quote") ∧
    queryRoute (t0 :: rest) = queryRoute (t0 :: rest') := by
  constructor
  · by_cases h : t0.type = some "quote" <;> simp [queryRoute, h]
  · rfl

/-- C6 (counterexample): for the candle target with refId "A", the built
request's `from`/`to` are the unix seconds of the range as claimed, but its
`refId` field is not the original refId — it is the `{ target }` wrapper. -/
theorem candle_refId_cex :
    (constructQuery candleTarget exRange).fromTime = some 1 ∧
    (constructQuery candleTarget exRange).toTime = some 2 ∧
    (constructQuery candleTarget exRange).refId ≠
      RefIdVal.str candleTarget.refId := by
  decide

/-- C6 (amended): for every candle-kind target, `constructQuery` emits the
uppercased symbol, the target's resolution and the range's start/end as
integer unix seconds, and its `refId` field is the `{ target }` object
wrapping the original target (which carries the original refId inside)
rather than the refId itself. -/
theorem constructQuery_candle (t : Target) (r : TimeRange)
    (h : t.type = some "candle") :
    constructQuery t r =
      { symbol := t.symbol.map jsToUpper, resolution := t.resolution,
        metric := none, fromTime := some r.fromUnix,
        toTime := some r.toUnix, refId := RefIdVal.wrapped t } := by
  unfold constructQuery
  rw [if_pos h]

/-- C6 (witness): the amended candle contract evaluated at the concrete
candle target and range. -/
theorem constructQuery_candle_witness :
    candleTarget.type = some "candle" ∧
    constructQuery candleTarget exRange =
      { symbol := candleTarget.symbol.map jsToUpper,
        resolution := candleTarget.resolution, metric := none,
        fromTime := some exRange.fromUnix, toTime := some exRange.toUnix,
        refId := RefIdVal.wrapped candleTarget } :=
  ⟨rfl, constructQuery_candle candleTarget exRange rfl⟩

/-- C9: symbol case normalization is total and idempotent: every target with
a defined symbol yields a request carrying the uppercased symbol, "aapl"
maps to "AAPL", and uppercasing twice equals uppercasing once. -/
theorem symbol_upper_total_idem (t : Target) (r : TimeRange) (s : String)
    (h : t.symbol = some s) :
    (constructQuery t r).symbol = some (jsToUpper s) ∧
    jsToUpper (jsToUpper s) = jsToUpper s ∧
    jsToUpper "aapl" = "AAPL" := by
  refine ⟨?_, jsToUpper_idem s, by decide⟩
  rw [(constructQuery_symbol_refId t r).1, h]
  rfl

/-- C9 (witness): the normalization contract evaluated at a target whose
symbol is the lower-case "aapl". -/
theorem symbol_upper_total_idem_witness :
    aaplTarget.symbol = some "aapl" ∧
    ((constructQuery aaplTarget exRange).symbol = some (jsToUpper "aapl") ∧
     jsToUpper (jsToUpper "aapl") = jsToUpper "aapl" ∧
     jsToUpper "aapl" = "AAPL") :=
  ⟨rfl, symbol_upper_total_idem aaplTarget exRange "aapl" rfl⟩

/-- C3 (counterexample): after the close-all operation, the open-connections
list is not empty — `closeSockets` closes each held socket but never clears
`this.sockets`, so a one-element list stays a one-element list. -/
theorem closeSockets_cex :
    closeSockets [{ symbol := some "AAPL", closed := false }] =
      [{ symbol := some "AAPL", closed := true }] ∧
    closeSockets [{ symbol := some "AAPL", closed := false }] ≠ [] := by
  decide

/-- C3 (amended): every `query` call first closes every connection
previously held (each entry of the list is marked closed, the list keeping
its length — it is never cleared), the post-call list is the closed old
connections followed by newly opened ones, and in the event trace every
close of a previous connection precedes every open for the new batch. -/
theorem querySockets_spec (sockets : List Conn) (targets : List Target)
    (r : TimeRange) :
    (∀ c ∈ closeSockets sockets, c.closed = true) ∧
    (closeSockets sockets).length = sockets.length ∧
    (∃ opened : List Conn,
      (querySockets sockets targets r).1 = closeSockets sockets ++ opened ∧
      ∀ c ∈ opened, c.closed = false) ∧
    (∃ opens : List SockEvent,
      (querySockets sockets targets r).2 =
        (sockets.map fun c => SockEvent.closeConn c.symbol) ++ opens ∧
      ∀ e ∈ opens, ∃ s, e = SockEvent.openConn s) := by
  refine ⟨?_, ?_, ?_, ?_⟩
  · intro c hc
    unfold closeSockets at hc
    rw [List.mem_map] at hc
    obtain ⟨a, _, rfl⟩ := hc
    rfl
  · unfold closeSockets
    exact List.length_map sockets _
  · unfold querySockets
    rcases hq : queryRoute targets with _ | route
    · exact ⟨[], by simp [hq], by simp⟩
    · cases route with
      | streaming =>
          refine ⟨targets.map fun t =>
            { symbol := (streamTarget t r).subscribeSymbol, closed := false },
            by simp [hq], ?_⟩
          intro c hc
          rw [List.mem_map] at hc
          obtain ⟨a, _, rfl⟩ := hc
          rfl
      | rest => exact ⟨[], by simp [hq], by simp⟩
  · unfold querySockets
    rcases hq : queryRoute targets with _ | route
    · exact ⟨[], by simp [hq], by simp⟩
    · cases route with
      | streaming =>
          refine ⟨targets.map fun t =>
            SockEvent.openConn (streamTarget t r).subscribeSymbol,
            by simp [hq], ?_⟩
          intro e he
          rw [List.mem_map] at he
          obtain ⟨a, _, rfl⟩ := he
          exact ⟨_, rfl⟩
      | rest => exact ⟨[], by simp [hq], by simp⟩

/-- C4: transport-failure asymmetry.  When the transport rejects, the
structured fetcher `get` logs and re-throws (its promise rejects with the
same error, which fails the whole `Promise.all` batch), while the free-text
passthrough `freeTextQuery` logs and swallows, resolving with `undefined`
rather than rejecting. -/
theorem fetchFailureAsymmetry (transport : Transport)
    (token dataType q : String) (params : List (String × String))
    (e₁ e₂ : String)
    (hg : transport (getUrl dataType) (params ++ [("token", token)]) =
      .error e₁)
    (hf : transport (baseUrl ++ "/" ++ q ++ "&token=" ++ token) [] =
      .error e₂) :
    get transport token dataType params =
      (.error e₁, ["Error retrieving data"]) ∧
    freeTextQuery transport token q = (none, ["Error retrieving data"]) := by
  unfold get freeTextQuery
  rw [hg, hf]
  exact ⟨rfl, rfl⟩

/-- C4 (witness): the asymmetry evaluated on a transport that always
rejects. -/
theorem fetchFailureAsymmetry_witness :
    failTransport (getUrl "profile") ([] ++ [("token", "tok")]) =
      .error "boom" ∧
    failTransport (baseUrl ++ "/" ++ "q" ++ "&token=" ++ "tok") [] =
      .error "boom" ∧
    (get failTransport "tok" "profile" [] =
      (.error "boom", ["Error retrieving data"]) ∧
     freeTextQuery failTransport "tok" "q" =
      (none, ["Error retrieving data"])) :=
  ⟨rfl, rfl,
    fetchFailureAsymmetry failTransport "tok" "profile" "q" [] "boom" "boom"
      rfl rfl⟩

/-- C10: `testDatasource` propagates a transport failure of the AAPL profile
probe as a rejection (never as a `status: "error"` result), and returns
`status: "error"` exactly when the probe resolves with an HTTP status other
than 200. -/
theorem testDatasource_error_policy (transport : Transport) (token : String) :
    (∀ e, transport (getUrl "profile") (probeParams ++ [("token", token)]) =
        .error e →
      testDatasource transport token = .error e) ∧
    (∀ resp,
      transport (getUrl "profile") (probeParams ++ [("token", token)]) =
        .ok resp →
      testDatasource transport token =
        .ok (if resp.status = 200 then "success" else "error")) ∧
    (testDatasource transport token = .ok "error" ↔
      ∃ resp,
        transport (getUrl "profile") (probeParams ++ [("token", token)]) =
          .ok resp ∧ resp.status ≠ 200) := by
  refine ⟨?_, ?_, ?_⟩
  · intro e he
    simp [testDatasource, get, he]
  · intro resp hr
    simp only [testDatasource, get, hr]
    split_ifs <;> rfl
  · rcases h : transport (getUrl "profile") (probeParams ++ [("token", token)])
      with e | resp
    · simp [testDatasource, get, h]
    · simp only [testDatasource, get, h]
      by_cases hs : resp.status = 200
      · rw [if_pos hs]
        constructor
        · intro hcontra
          exact absurd hcontra (by simp)
        · rintro ⟨resp', heq, hne⟩
          cases heq
          exact absurd hs hne
      · rw [if_neg hs]
        exact ⟨fun _ => ⟨resp, rfl, hs⟩, fun _ => rfl⟩

/-- C10 (witness): the policy evaluated on a rejecting transport and on one
resolving with HTTP status 500. -/
theorem testDatasource_error_policy_witness :
    testDatasource failTransport "tok" = .error "boom" ∧
    testDatasource status500Transport "tok" = .ok "error" := by
  constructor
  · exact (testDatasource_error_policy failTransport "tok").1 "boom" rfl
  · have h := (testDatasource_error_policy status500Transport "tok").2.1
      { status := 500, body := .undefVal } rfl
    simpa using h

/-- C5 (counterexample): a free-text target is not always normalized to a
Table.  The earnings-kind target with a non-empty free-text override takes
the free-text request path, yet its result is a time-series list, because
the Table/TimeSeries choice reads only the target's kind. -/
theorem freeText_not_table_cex :
    requestOf freeTextEarningsTarget exRange =
      RequestKind.freeText "stock/earnings?symbol=AAPL" ∧
    (normalizeTarget freeTextEarningsTarget smallEarningsPayload).map
      NormalizedOutput.isTableShape = some false := by
  exact ⟨by decide, rfl⟩

/-- C5 (amended): the normalized result's shape for a non-streaming target —
free-text or structured alike — is a Table exactly when the target
classifier maps the target's kind to Table; a present free-text override
does not force Table output. -/
theorem normalize_shape_by_kind (t : Target) (data : JVal)
    (out : NormalizedOutput) (h : normalizeTarget t data = some out) :
    (out.isTableShape = true ↔
      getTargetType (withDefaults t).type = TargetType.Table) := by
  unfold normalizeTarget at h
  rcases hm : jgetOpt data "metric" with _ | mf
  · rw [hm] at h
    cases h
  · rw [hm] at h
    rw [Option.some_bind] at h
    by_cases ht : getTargetType (withDefaults t).type = TargetType.Table
    · rw [if_pos ht] at h
      cases h
      simp [ht, tableResponse_shape]
    · rw [if_neg ht] at h
      rcases Option.map_eq_some'.mp h with ⟨l, _, rfl⟩
      simp [ht, NormalizedOutput.isTableShape]

/-- C5 (witness): the shape contract evaluated at the free-text earnings
target, whose output is the concrete time-series list `smallSeriesOut`. -/
theorem normalize_shape_by_kind_witness :
    smallSeriesOut.isTableShape = true ↔
      getTargetType (withDefaults freeTextEarningsTarget).type =
        TargetType.Table :=
  normalize_shape_by_kind freeTextEarningsTarget smallEarningsPayload
    smallSeriesOut rfl

/-- C7: earnings normalization.  For every non-empty earnings payload all of
whose data points are present values, the normalizer emits one named series
per field of the first data point excluding `period` and `symbol` (so no
series is ever named "period" or "symbol"), each series listing
`(fieldValue, epoch-ms of the point's period)` over the whole payload in
order; on the spec's example payload this is exactly the two series
"actual" and "estimate", timestamped at the epoch-ms value of
"2020-01-01". -/
theorem tsResponse_earnings_spec (d0 : JVal) (rest : List JVal)
    (h : ∀ dp ∈ d0 :: rest, dp ≠ JVal.undefVal) :
    tsResponse (.arr (d0 :: rest)) "earnings" =
      some (((jkeys d0).filter fun key =>
          !(["period", "symbol"].contains key)).map fun key =>
        { target := key,
          datapoints := (d0 :: rest).map fun dp =>
            (jget dp key, jsDateGetTime (jget dp "period")) }) ∧
    (∀ s ∈ (((jkeys d0).filter fun key =>
          !(["period", "symbol"].contains key)).map fun key =>
        ({ target := key,
           datapoints := (d0 :: rest).map fun dp =>
             (jget dp key, jsDateGetTime (jget dp "period")) } : TimeSeries)),
      s.target ≠ "period" ∧ s.target ≠ "symbol") ∧
    tsResponse earningsPayload "earnings" =
      some [{ target := "actual",
              datapoints := [(.num (11 / 10), .num 1577836800000)] },
            { target := "estimate",
              datapoints := [(.num 1, .num 1577836800000)] }] ∧
    parseDateMs "2020-01-01" = some 1577836800000 := by
  refine ⟨?_, ?_, rfl, rfl⟩
  · have e1 : tsResponse (.arr (d0 :: rest)) "earnings" =
        ((jkeys d0).filter fun key =>
            !(["period", "symbol"].contains key)).mapM fun key =>
          ((d0 :: rest).mapM fun dp =>
            (jgetOpt dp key).bind fun v =>
              (jgetOpt dp "period").map fun per =>
                (v, jsDateGetTime per)).map fun points =>
            { target := key, datapoints := points } := rfl
    refine e1.trans (mapM_eq_map _ _ _ ?_)
    intro key _
    rw [mapM_eq_map _
      (fun dp => (jget dp key, jsDateGetTime (jget dp "period")))
      _ ?_]
    · rfl
    · intro dp hdp
      rw [jgetOpt_some dp key (h dp hdp),
        jgetOpt_some dp "period" (h dp hdp)]
      rfl
  · intro s hs
    rw [List.mem_map] at hs
    obtain ⟨key, hk, rfl⟩ := hs
    rw [List.mem_filter] at hk
    have hk2 := hk.2
    show key ≠ "period" ∧ key ≠ "symbol"
    simp at hk2
    exact hk2

/-- C7 (witness): the earnings contract applied at the spec's example
payload (one data point, fields period, symbol, actual, estimate). -/
theorem tsResponse_earnings_spec_witness :
    tsResponse earningsPayload "earnings" =
      some [{ target := "actual",
              datapoints := [(.num (11 / 10), .num 1577836800000)] },
            { target := "estimate",
              datapoints := [(.num 1, .num 1577836800000)] }] :=
  (tsResponse_earnings_spec earningsPoint []
    (by
      intro dp hdp
      rw [List.mem_singleton] at hdp
      subst hdp
      exact fun hc => JVal.noConfusion hc)).2.2.1

/-- General form of the candle branch of `tsResponse`: for a payload with
`t`, `o`, `c` arrays it emits exactly the "open price" and "close price"
series, zipping `t` against `o` and `c` with millisecond scaling. -/
theorem tsCandle_eq (times os cs : List JVal) :
    tsResponse (.obj [("t", .arr times), ("o", .arr os), ("c", .arr cs)])
        "candle" =
      some [{ target := "open price",
              datapoints := times.enum.map fun p =>
                (os.getD p.1 .undefVal, jmul1000 p.2) },
            { target := "close price",
              datapoints := times.enum.map fun p =>
                (cs.getD p.1 .undefVal, jmul1000 p.2) }] := by
  have e1 : tsResponse
      (.obj [("t", .arr times), ("o", .arr os), ("c", .arr cs)]) "candle" =
      (["open price", "close price"].mapM fun field =>
        (times.enum.mapM fun p =>
          (jindexOpt
            (jget (JVal.obj [("t", .arr times), ("o", .arr os),
              ("c", .arr cs)]) (charAt0 field)) p.1).map fun v =>
            (v, jmul1000 p.2)).map fun points =>
          { target := field, datapoints := points }) := rfl
  refine e1.trans ?_
  have ho : (times.enum.mapM fun p =>
      (jindexOpt
        (jget (JVal.obj [("t", .arr times), ("o", .arr os), ("c", .arr cs)])
          (charAt0 "open price")) p.1).map fun v =>
        (v, jmul1000 p.2)) =
      some (times.enum.map fun p => (os.getD p.1 .undefVal, jmul1000 p.2)) :=
    mapM_eq_map _ _ _ fun p _ => rfl
  have hc : (times.enum.mapM fun p =>
      (jindexOpt
        (jget (JVal.obj [("t", .arr times), ("o", .arr os), ("c", .arr cs)])
          (charAt0 "close price")) p.1).map fun v =>
        (v, jmul1000 p.2)) =
      some (times.enum.map fun p => (cs.getD p.1 .undefVal, jmul1000 p.2)) :=
    mapM_eq_map _ _ _ fun p _ => rfl
  rw [List.mapM_cons, List.mapM_cons, List.mapM_nil, ho, hc]
  rfl

/-- C8: candle normalization.  For every payload carrying `t`, `o`, `c`
arrays, the normalizer emits exactly the two series "open price" and
"close price", zipping `t` against `o` and `c` with times scaled to
milliseconds; on the spec's example `{t:[100,200], o:[10,11], c:[12,13]}`
this gives the samples `[(10,100000),(11,200000)]` and
`[(12,100000),(13,200000)]`. -/
theorem tsResponse_candle_spec (times os cs : List JVal) :
    tsResponse (.obj [("t", .arr times), ("o", .arr os), ("c", .arr cs)])
        "candle" =
      some [{ target := "open price",
              datapoints := times.enum.map fun p =>
                (os.getD p.1 .undefVal, jmul1000 p.2) },
            { target := "close price",
              datapoints := times.enum.map fun p =>
                (cs.getD p.1 .undefVal, jmul1000 p.2) }] ∧
    tsResponse candlePayload "candle" =
      some [{ target := "open price",
              datapoints := [(.num 10, .num 100000),
                             (.num 11, .num 200000)] },
            { target := "close price",
              datapoints := [(.num 12, .num 100000),
                             (.num 13, .num 200000)] }] := by
  refine ⟨tsCandle_eq times os cs, ?_⟩
  have hx := tsCandle_eq [.num 100, .num 200] [.num 10, .num 11]
    [.num 12, .num 13]
  rw [show candlePayload =
    JVal.obj [("t", .arr [.num 100, .num 200]),
              ("o", .arr [.num 10, .num 11]),
              ("c", .arr [.num 12, .num 13])] from rfl, hx]
  norm_num [List.enum, List.enumFrom, jmul1000]

end GrafanaFinnhub
